import Mathlib

/-!
Verification development for the S2_TCVIS mosaic pipeline.

Shallow embedding conventions:
* a raster pixel that may be nodata/NaN is `Option ℚ` (`none` = NaN);
* machine floats are embedded as exact rationals `ℚ`;
* external collaborators (the raster codec's read/clip, the pyproj
  transformer, the cloud classifier, the bilinear resampler) are passed
  in as explicit parameters or oracle values;
* fallible Python code (raised exceptions) is `Except String _`.
-/

namespace S2TCVIS

/-! ## Quantization to uint16 (src/utils/spatial/raster.py `da_to_uint16`,
src/utils/download.py `process_year`, src/utils/mask.py `mask_scene`) -/

/-- `np.clip(v, 0, 10000)` on a non-NaN value. -/
def clip0to10000 (v : ℚ) : ℚ := min (max v 0) 10000

/-- `astype("uint16")` on a float already in `[0, 10000]`: C truncation,
which on nonnegative values is the floor. -/
def toUint16 (v : ℚ) : ℕ := (Int.floor v).toNat

/-- Pixelwise `fillna(0).clip(0, 10000).astype("uint16")` — the order used
in `process_year` and in `mask_scene`. -/
def quantFillThenClip (o : Option ℚ) : ℕ :=
  toUint16 (clip0to10000 (o.getD 0))

/-- Pixelwise `clip(0, 10000).fillna(0).astype("uint16")` — the order used
in `da_to_uint16`; `np.clip` propagates NaN, so `clip` maps `none` to
`none`. -/
def da_to_uint16_pix (o : Option ℚ) : ℕ :=
  toUint16 ((o.map clip0to10000).getD 0)

/-! ## Median mosaic (src/utils/spatial/raster.py `create_median_mosaic`)

`create_median_mosaic` opens the masked scenes with `masked=True`
(nodata 0 becomes NaN, i.e. `none`), concatenates them along a `time`
axis, takes `stack.median(dim="time", skipna=True)` and only then
converts with `da_to_uint16`.  Pixelwise, the skip-NaN median is numpy's
`nanmedian`: drop the NaNs, sort, and average the elements at indices
`(n-1)/2` and `n/2` (equal indices when `n` is odd). -/

/-- Drop the NaN observations of a pixel's time series. -/
def validObs (ts : List (Option ℚ)) : List ℚ := ts.filterMap id

/-- Ordered insertion into an ascending list. -/
def insertQ (v : ℚ) : List ℚ → List ℚ
  | [] => [v]
  | x :: xs => if v ≤ x then v :: x :: xs else x :: insertQ v xs

/-- Ascending sort, as numpy's partition/sort orders by `≤`. -/
def sortQ (xs : List ℚ) : List ℚ := xs.foldr insertQ []

/-- numpy `nanmedian` on the valid observations: NaN (`none`) when there
are none, otherwise the mean of the two middle elements of the sorted
values (the same element twice when the count is odd). -/
def nanMedian (xs : List ℚ) : Option ℚ :=
  let s := sortQ xs
  let n := s.length
  if n = 0 then none
  else some ((s.getD ((n - 1) / 2) 0 + s.getD (n / 2) 0) / 2)

/-- `stack.median(dim="time", skipna=True)` at one (band, y, x) position,
given that pixel's time series. -/
def medianPixel (ts : List (Option ℚ)) : Option ℚ :=
  nanMedian (validObs ts)

/-- One scene raster as a (band, y, x) grid of possibly-NaN values. -/
abbrev Grid3 : Type := List (List (List (Option ℚ)))

/-- Pixel lookup in a (band, y, x) grid. -/
def pixAt (g : Grid3) (b y x : ℕ) : Option ℚ :=
  (((g.getD b []).getD y []).getD x none)

/-- The time series of one (band, y, x) position across a year stack
(the `xr.concat(scenes, dim="time")` axis). -/
def seriesAt (stack : List Grid3) (b y x : ℕ) : List (Option ℚ) :=
  stack.map (fun g => pixAt g b y x)

/-- `create_median_mosaic`'s value at one (band, y, x) position: the
skip-NaN temporal median, then `da_to_uint16`. -/
def createMedianMosaicPix (stack : List Grid3) (b y x : ℕ) : ℕ :=
  da_to_uint16_pix (medianPixel (seriesAt stack b y x))

/-! ## Tasseled cap (src/utils/spatial/raster.py `compute_tasseled_cap`)

The function scales the 6-band input by `1/10000`, replaces post-scale
zeros with NaN via `da.where(da != 0)`, and forms three linear
combinations with fixed coefficients.  NaN propagates through `*` and
`+`, so a `none` in any band makes each output `none`. -/

/-- One row of tasseled-cap coefficients. -/
structure TCRow where
  blue : ℚ
  green : ℚ
  red : ℚ
  nir : ℚ
  swir1 : ℚ
  swir2 : ℚ

/-- The brightness row of the coefficient table in the source. -/
def tcbRow : TCRow :=
  { blue := 0.3037, green := 0.2793, red := 0.4743,
    nir := 0.5585, swir1 := 0.5082, swir2 := 0.1863 }

/-- The greenness row of the coefficient table in the source. -/
def tcgRow : TCRow :=
  { blue := -0.2848, green := -0.2435, red := -0.5436,
    nir := 0.7243, swir1 := 0.0840, swir2 := -0.1800 }

/-- The wetness row of the coefficient table in the source. -/
def tcwRow : TCRow :=
  { blue := 0.1509, green := 0.1973, red := 0.3279,
    nir := 0.3406, swir1 := -0.7112, swir2 := -0.4572 }

/-- Multiplication of a float constant by a possibly-NaN value. -/
def mulC (c : ℚ) (o : Option ℚ) : Option ℚ := o.map (fun v => c * v)

/-- Addition of possibly-NaN values: NaN propagates. -/
def addO (a b : Option ℚ) : Option ℚ :=
  match a, b with
  | some x, some y => some (x + y)
  | _, _ => none

/-- `da.astype("float32") / 10000.0` on one pixel. -/
def scalePix (o : Option ℚ) : Option ℚ := o.map (fun v => v / 10000)

/-- `da.where(da != 0)` on one (already scaled) pixel: an exact zero
becomes NaN; a NaN compares `!= 0` as true and stays NaN. -/
def zeroToNaN (o : Option ℚ) : Option ℚ :=
  match o with
  | none => none
  | some v => if v = 0 then none else some v

/-- The body of the source's `tc(c)` helper: the coefficient row applied
to the six prepared band values, with the source's left-nested sum. -/
def tcCombo (c : TCRow) (blue green red nir swir1 swir2 : Option ℚ) : Option ℚ :=
  addO (addO (addO (addO (addO
    (mulC c.blue blue) (mulC c.green green)) (mulC c.red red))
    (mulC c.nir nir)) (mulC c.swir1 swir1)) (mulC c.swir2 swir2)

/-- `compute_tasseled_cap` at one pixel: scale each band by `1/10000`,
NaN out exact zeros, then produce the (TCB, TCG, TCW) triple. -/
def computeTasseledCapPix (blue green red nir swir1 swir2 : Option ℚ) :
    Option ℚ × Option ℚ × Option ℚ :=
  let b := zeroToNaN (scalePix blue)
  let g := zeroToNaN (scalePix green)
  let r := zeroToNaN (scalePix red)
  let n := zeroToNaN (scalePix nir)
  let s1 := zeroToNaN (scalePix swir1)
  let s2 := zeroToNaN (scalePix swir2)
  (tcCombo tcbRow b g r n s1 s2, tcCombo tcgRow b g r n s1 s2,
   tcCombo tcwRow b g r n s1 s2)

/-! ## CRS/AOI resolver (src/utils/spatial/geom.py and src/utils/download.py
`detect_epsg_and_bounds`)

The scene list is embedded as the list of the items' optional declared
`proj:epsg` codes; the pyproj transformer for a given EPSG code is an
external oracle `tx : ℤ → ℚ × ℚ → ℚ × ℚ`. -/

/-- A lon/lat axis-aligned bounding box `(minx, miny, maxx, maxy)`. -/
structure BBoxLL where
  minx : ℚ
  miny : ℚ
  maxx : ℚ
  maxy : ℚ

/-- The `bounds_proj` computation of `detect_epsg_and_bounds`: transform
the `(minx, miny)` and `(maxx, maxy)` corners only, then take min/max
per axis of those two projected points. -/
def boundsProj (tx : ℚ × ℚ → ℚ × ℚ) (b : BBoxLL) : ℚ × ℚ × ℚ × ℚ :=
  let p1 := tx (b.minx, b.miny)
  let p2 := tx (b.maxx, b.maxy)
  (min p1.1 p2.1, min p1.2 p2.2, max p1.1 p2.1, max p1.2 p2.2)

/-- Axis-aligned bounding box enclosing a list of projected points
(first point seeds the fold; `(0,0,0,0)` for an empty list). -/
def encloseBBox (ps : List (ℚ × ℚ)) : ℚ × ℚ × ℚ × ℚ :=
  match ps with
  | [] => (0, 0, 0, 0)
  | p :: rest =>
      rest.foldl
        (fun acc q =>
          (min acc.1 q.1, min acc.2.1 q.2, max acc.2.2.1 q.1, max acc.2.2.2 q.2))
        (p.1, p.2, p.1, p.2)

/-- Modelled from the spec ("Projects the AOI's four corners into the
chosen CRS and returns the enclosing axis-aligned bounding box"): the
bbox of all four projected corners, for comparison with `boundsProj`. -/
def fourCornerBounds (tx : ℚ × ℚ → ℚ × ℚ) (b : BBoxLL) : ℚ × ℚ × ℚ × ℚ :=
  encloseBBox
    ([(b.minx, b.miny), (b.minx, b.maxy), (b.maxx, b.miny), (b.maxx, b.maxy)].map tx)

/-- The UTM zone of `detect_epsg_and_bounds`'s fallback:
`int(math.floor((lon + 180) / 6) + 1)`. -/
def utmZone (lon : ℚ) : ℤ := Int.floor ((lon + 180) / 6) + 1

/-- `detect_epsg_and_bounds`: raise on an empty item list; use the first
item exposing a declared `proj:epsg`; otherwise derive a UTM EPSG from
the bbox midpoint; finally project the two diagonal corners. -/
def detect_epsg_and_bounds (tx : ℤ → ℚ × ℚ → ℚ × ℚ)
    (items : List (Option ℤ)) (bbox : BBoxLL) :
    Except String (ℤ × BBoxLL × (ℚ × ℚ × ℚ × ℚ)) :=
  if items.isEmpty then .error "No items"
  else
    let epsg :=
      match items.findSome? id with
      | some e => e
      | none =>
          let lon := (bbox.minx + bbox.maxx) / 2
          let lat := (bbox.miny + bbox.maxy) / 2
          if 0 ≤ lat then 32600 + utmZone lon else 32700 + utmZone lon
    .ok (epsg, bbox, boundsProj (tx epsg) bbox)

/-! ## Per-scene acquisition flow (src/utils/download.py `process_year`)

One iteration of the per-scene loop.  The external raster codec's
"open, squeeze, write_crs, clip_box" chain is folded into the asset
mapping: an asset, when present, yields the clipped band raster
directly.  The bilinear resampler of `reproject_match` is an external
parameter; `reproject_match` itself puts the coarse band onto the
reference raster's grid and raises when the reference is `None`.
The classifier (`predict_from_array`) is an oracle outcome. -/

/-- A single-band raster: its pixel size and its (y, x) pixel values. -/
structure BandRaster where
  pixelSize : ℚ
  rows : List (List (Option ℚ))
deriving DecidableEq

/-- A fallback band raster for total lookups (never the checked path). -/
def defaultBR : BandRaster := { pixelSize := 0, rows := [] }

/-- An aligned scene: the band rasters stacked by `xr.concat`, ordered
as `BAND_LABELS`. -/
abbrev Scene : Type := List BandRaster

/-- Observable per-scene events; the claims only need band fetches. -/
inductive Event where
  | fetch (band : String)
deriving DecidableEq

/-- `BAND_ORDER` from the source. -/
def BAND_ORDER : List String :=
  ["B02_10m", "B03_10m", "B04_10m", "B08_10m", "B11_20m", "B12_20m"]

/-- `BAND_LABELS` from the source. -/
def BAND_LABELS : List String :=
  ["Blue", "Green", "Red", "NIR", "SWIR1", "SWIR2"]

/-- Python's `str.endswith`, computed structurally on the character
list: the last `len(suf)` characters equal `suf`. -/
def strEndsWith (s suf : String) : Bool :=
  decide (s.data.drop (s.data.length - suf.data.length) = suf.data)

/-- `[b for b in band_order if b.endswith("10m")]`. -/
def bands10of (order : List String) : List String :=
  order.filter (fun b => strEndsWith b "10m")

/-- `[b for b in band_order if b.endswith("20m")]`. -/
def bands20of (order : List String) : List String :=
  order.filter (fun b => strEndsWith b "20m")

/-- `bname in it_s3.assets` / `it_s3.assets[bname]`, with the codec read
and clip folded in. -/
def getAsset (assets : List (String × BandRaster)) (name : String) :
    Option BandRaster :=
  (assets.find? (fun p => p.1 == name)).map Prod.snd

/-- The reference-band loop: fetch each present 10m band in order,
recording a fetch event for each; missing assets are skipped. -/
def fetch10 (assets : List (String × BandRaster)) :
    List String → List BandRaster × List Event
  | [] => ([], [])
  | b :: rest =>
      let r := fetch10 assets rest
      match getAsset assets b with
      | none => r
      | some da => (da :: r.1, .fetch b :: r.2)

/-- `da20.rio.reproject_match(ref, resampling=bilinear)`: raises when
`ref` is `None`; otherwise returns a raster on the reference grid with
externally resampled pixel values. -/
def reprojectMatch (resample : BandRaster → BandRaster → List (List (Option ℚ)))
    (ref : Option BandRaster) (da20 : BandRaster) : Except String BandRaster :=
  match ref with
  | none => .error "AttributeError: NoneType object has no attribute rio"
  | some r => .ok { pixelSize := r.pixelSize, rows := resample r da20 }

/-- The coarse-band loop: fetch each present 20m band in order and
reproject it onto the reference grid; a raised exception stops the loop,
keeping the events that already happened. -/
def fetch20 (resample : BandRaster → BandRaster → List (List (Option ℚ)))
    (assets : List (String × BandRaster)) (ref : Option BandRaster) :
    List String → Except String (List BandRaster) × List Event
  | [] => (.ok [], [])
  | b :: rest =>
      match getAsset assets b with
      | none => fetch20 resample assets ref rest
      | some da20 =>
          match reprojectMatch resample ref da20 with
          | .error e => (.error e, [.fetch b])
          | .ok da20u =>
              let r := fetch20 resample assets ref rest
              ((r.1).map (fun ps => da20u :: ps), .fetch b :: r.2)

/-- The harmonization block of the per-scene loop: reference bands, then
coarse bands against the first reference band; `.ok none` is the
"No usable bands" skip, `.error` a raised exception. -/
def harmonizeScene (resample : BandRaster → BandRaster → List (List (Option ℚ)))
    (bands10 bands20 : List String) (assets : List (String × BandRaster)) :
    Except String (Option Scene) × List Event :=
  let r10 := fetch10 assets bands10
  let ref := r10.1.head?
  let r20 := fetch20 resample assets ref bands20
  match r20.1 with
  | .error e => (.error e, r10.2 ++ r20.2)
  | .ok p20 =>
      let pieces := r10.1 ++ p20
      if pieces.isEmpty then (.ok none, r10.2 ++ r20.2)
      else (.ok (some pieces), r10.2 ++ r20.2)

/-! ## Cloud-mask gate (src/utils/download.py and src/utils/mask.py) -/

/-- The classifier's output array: 2-D `(y, x)` or 3-D `(c, y, x)`. -/
inductive PredMask where
  | d2 (m : List (List ℤ))
  | d3 (chans : List (List (List ℤ)))
deriving DecidableEq

/-- numpy shape of a rectangular 2-D array. -/
def shape2 (m : List (List ℤ)) : ℕ × ℕ := (m.length, (m.headD []).length)

/-- The normalization step: `(1, y, x)` drops the channel axis,
`(3, y, x)` selects channel index 1, anything else is left unchanged. -/
def normalizePred : PredMask → PredMask
  | .d2 m => .d2 m
  | .d3 chans =>
      if chans.length = 1 then .d2 (chans.headD [])
      else if chans.length = 3 then .d2 (chans.getD 1 [])
      else .d3 chans

/-- `pred_mask.shape == (scene.sizes["y"], scene.sizes["x"])`: a 3-D
shape never equals a 2-tuple. -/
def predShapeMatches (pm : PredMask) (ny nx : ℕ) : Bool :=
  match pm with
  | .d2 m => shape2 m = (ny, nx)
  | .d3 _ => false

/-- `scene.sizes["y"]` of the concatenated scene. -/
def sceneNY (s : Scene) : ℕ := ((s.headD defaultBR).rows).length

/-- `scene.sizes["x"]` of the concatenated scene. -/
def sceneNX (s : Scene) : ℕ := (((s.headD defaultBR).rows).headD []).length

/-- `scene.where(mask_da)` with keep-mask `pred_mask == 0`, applied to
every band: a pixel keeps its value where the class is 0 and becomes
NaN elsewhere. -/
def applyKeepMask (m : List (List ℤ)) (s : Scene) : Scene :=
  s.map (fun br =>
    { br with
      rows := List.zipWith
        (fun mrow row => List.zipWith
          (fun mv v => if mv = 0 then v else none) mrow row)
        m br.rows })

/-- The guarded masking block shared by `process_year` and `mask_scene`:
propagate a classifier exception, normalize the class map, raise on a
shape mismatch, otherwise apply the keep-mask. -/
def maskStage (s : Scene) (classifyRes : Except String PredMask) :
    Except String Scene :=
  match classifyRes with
  | .error e => .error e
  | .ok pm =>
      match normalizePred pm with
      | .d3 _ => .error "Mask shape does not match scene shape"
      | .d2 m =>
          if shape2 m = (sceneNY s, sceneNX s) then .ok (applyKeepMask m s)
          else .error "Mask shape does not match scene shape"

/-- `scene.fillna(0).clip(0, 10000).astype("uint16")` over a whole scene,
keeping each band's pixel size. -/
def quantizeScene (s : Scene) : List (ℚ × List (List ℕ)) :=
  s.map (fun br => (br.pixelSize, br.rows.map (List.map quantFillThenClip)))

/-- The per-scene oracle inputs: the projected-intersection coverage,
the scene's available (already clipped) band assets, and the cloud
classifier's outcome. -/
structure SceneCtx where
  coverage : ℚ
  assets : List (String × BandRaster)
  classifyRes : Except String PredMask

/-- One iteration of `process_year`'s scene loop: the coverage admission
check before anything is fetched; harmonization (a raised exception
fails the scene); the inner try/except around masking that degrades to
the unmasked scene; quantization and persistence.  Returns the persisted
scene (`none` when skipped or failed) and the event trace. -/
def processScene (resample : BandRaster → BandRaster → List (List (Option ℚ)))
    (bands10 bands20 : List String) (sc : SceneCtx) :
    Option (List (ℚ × List (List ℕ))) × List Event :=
  if sc.coverage < 2/5 then (none, [])
  else
    let h := harmonizeScene resample bands10 bands20 sc.assets
    match h.1 with
    | .error _ => (none, h.2)
    | .ok none => (none, h.2)
    | .ok (some scene) =>
        let scene2 :=
          match maskStage scene sc.classifyRes with
          | .ok s => s
          | .error _ => scene
        (some (quantizeScene scene2), h.2)

/-! ## Standalone masking stage (src/utils/mask.py `mask_scene` and
src/mask_scenes.py `main`)

`mask_scene` runs the same masking block but with no try/except of its
own: a classifier exception or shape mismatch propagates out before any
output is written.  `main`'s loop catches the exception, logs it and
counts a failure — no masked output file is produced for that scene. -/

/-- `mask_scene` on an opened scene with a classifier outcome: the
masking block, then `fillna(0).clip(0, 10000).astype("uint16")` and the
write.  An exception escapes before anything is persisted. -/
def mask_scene_run (s : Scene) (classifyRes : Except String PredMask) :
    Except String (List (ℚ × List (List ℕ))) :=
  match maskStage s classifyRes with
  | .error e => .error e
  | .ok masked => .ok (quantizeScene masked)

/-- One iteration of `mask_scenes.main`'s loop: the caught exception
leaves no output for the scene (`none`). -/
def maskScenesMainStep (s : Scene) (classifyRes : Except String PredMask) :
    Option (List (ℚ × List (List ℕ))) :=
  match mask_scene_run s classifyRes with
  | .ok out => some out
  | .error _ => none

/-! ## Helper lemmas -/

/-- `nanMedian` unfolded to its if-then-else form. -/
lemma nanMedian_eq (xs : List ℚ) :
    nanMedian xs =
      if (sortQ xs).length = 0 then none
      else some (((sortQ xs).getD (((sortQ xs).length - 1) / 2) 0
        + (sortQ xs).getD ((sortQ xs).length / 2) 0) / 2) := rfl

/-- `da_to_uint16` sends NaN to the nodata sentinel 0. -/
lemma da_to_uint16_pix_none : da_to_uint16_pix none = 0 := by
  simp [da_to_uint16_pix, toUint16]

/-! ## Claim theorems -/

/-- C1: at each (band, y, x) position the compositor's output is the
uint16 quantization of the nodata-ignoring temporal median, where that
median is the middle sorted value for an odd count of non-nodata
observations, the exact arithmetic mean of the two middle sorted values
for an even count (before any quantization), and nodata — quantized to
the sentinel 0 — for a zero count; the quantization is applied only
after the temporal reduction. -/
theorem median_mosaic_pixel_spec (stack : List Grid3) (b y x : ℕ) :
    createMedianMosaicPix stack b y x
        = da_to_uint16_pix (medianPixel (seriesAt stack b y x)) ∧
    (sortQ (validObs (seriesAt stack b y x)) = [] →
        medianPixel (seriesAt stack b y x) = none ∧
        createMedianMosaicPix stack b y x = 0) ∧
    (∀ k, (sortQ (validObs (seriesAt stack b y x))).length = 2 * k + 1 →
        medianPixel (seriesAt stack b y x)
          = some ((sortQ (validObs (seriesAt stack b y x))).getD k 0)) ∧
    (∀ k, (sortQ (validObs (seriesAt stack b y x))).length = 2 * k + 2 →
        medianPixel (seriesAt stack b y x)
          = some (((sortQ (validObs (seriesAt stack b y x))).getD k 0
              + (sortQ (validObs (seriesAt stack b y x))).getD (k + 1) 0) / 2)) := by
  refine ⟨rfl, ?_, ?_, ?_⟩
  · intro h
    have hm : medianPixel (seriesAt stack b y x) = none := by
      rw [medianPixel, nanMedian_eq, h]
      simp
    refine ⟨hm, ?_⟩
    rw [createMedianMosaicPix, hm, da_to_uint16_pix_none]
  · intro k hk
    rw [medianPixel, nanMedian_eq, hk]
    have h1 : (2 * k + 1 - 1) / 2 = k := by omega
    have h2 : (2 * k + 1) / 2 = k := by omega
    rw [h1, h2]
    simp [add_self_div_two]
  · intro k hk
    rw [medianPixel, nanMedian_eq, hk]
    have h1 : (2 * k + 2 - 1) / 2 = k := by omega
    have h2 : (2 * k + 2) / 2 = k + 1 := by omega
    rw [h1, h2]
    simp

/-- Witness for C1: the spec's own end-to-end scenario (values 100, 200,
300 at one pixel give 200), an even-count pixel, and a zero-count
pixel. -/
theorem median_mosaic_pixel_spec_witness :
    medianPixel (seriesAt [[[[some 100]]], [[[some 200]]], [[[some 300]]]] 0 0 0)
        = some 200 ∧
    createMedianMosaicPix [[[[some 100]]], [[[some 200]]], [[[some 300]]]] 0 0 0
        = 200 ∧
    medianPixel (seriesAt [[[[some 100]]], [[[some 400]]]] 0 0 0) = some 250 ∧
    medianPixel (seriesAt [[[[(none : Option ℚ)]]]] 0 0 0) = none ∧
    createMedianMosaicPix [[[[(none : Option ℚ)]]]] 0 0 0 = 0 := by
  refine ⟨?_, ?_, ?_, ?_, ?_⟩
  · refine ((median_mosaic_pixel_spec
      [[[[some 100]]], [[[some 200]]], [[[some 300]]]] 0 0 0).2.2.1 1
      (by simp [sortQ, insertQ, validObs, seriesAt, pixAt]; norm_num)).trans ?_
    simp [sortQ, insertQ, validObs, seriesAt, pixAt]
    norm_num
  · rw [(median_mosaic_pixel_spec
      [[[[some 100]]], [[[some 200]]], [[[some 300]]]] 0 0 0).1,
      (median_mosaic_pixel_spec
      [[[[some 100]]], [[[some 200]]], [[[some 300]]]] 0 0 0).2.2.1 1
      (by simp [sortQ, insertQ, validObs, seriesAt, pixAt]; norm_num)]
    simp [sortQ, insertQ, validObs, seriesAt, pixAt, da_to_uint16_pix,
      clip0to10000, toUint16]
    norm_num
    rfl
  · refine ((median_mosaic_pixel_spec
      [[[[some 100]]], [[[some 400]]]] 0 0 0).2.2.2 0
      (by simp [sortQ, insertQ, validObs, seriesAt, pixAt]; norm_num)).trans ?_
    simp [sortQ, insertQ, validObs, seriesAt, pixAt]
    norm_num
  · exact ((median_mosaic_pixel_spec [[[[(none : Option ℚ)]]]] 0 0 0).2.1
      (by simp [sortQ, insertQ, validObs, seriesAt, pixAt])).1
  · exact ((median_mosaic_pixel_spec [[[[(none : Option ℚ)]]]] 0 0 0).2.1
      (by simp [sortQ, insertQ, validObs, seriesAt, pixAt])).2

/-- C10: the two quantization orderings in the source — `fillna` then
`clip` then cast (`process_year`, `mask_scene`) versus `clip` then
`fillna` then cast (`da_to_uint16`) — agree on every input; both send
NaN and every value ≤ 0 to the sentinel 0 and every value ≥ 10000 to
10000. -/
theorem quantization_order_equiv (o : Option ℚ) (v : ℚ) :
    quantFillThenClip o = da_to_uint16_pix o ∧
    quantFillThenClip none = 0 ∧
    (v ≤ 0 → quantFillThenClip (some v) = 0) ∧
    (10000 ≤ v → quantFillThenClip (some v) = 10000) := by
  refine ⟨?_, by norm_num [quantFillThenClip, clip0to10000, toUint16], ?_, ?_⟩
  · cases o with
    | none => norm_num [quantFillThenClip, da_to_uint16_pix, clip0to10000, toUint16]
    | some w => rfl
  · intro h
    have hmax : max v 0 = 0 := max_eq_right h
    norm_num [quantFillThenClip, clip0to10000, hmax, toUint16]
  · intro h
    have h0 : (0 : ℚ) ≤ v := le_trans (by norm_num) h
    have hmax : max v 0 = v := max_eq_left h0
    have hmin : min v 10000 = (10000 : ℚ) := min_eq_right h
    norm_num [quantFillThenClip, clip0to10000, hmax, hmin, toUint16]
    rfl

/-- Witness for C10: a negative value and an overflowing value both hit
their saturation points under the `process_year` ordering. -/
theorem quantization_order_equiv_witness :
    quantFillThenClip (some (-5)) = 0 ∧
    quantFillThenClip (some 12000) = 10000 :=
  ⟨(quantization_order_equiv (some (-5)) (-5)).2.2.1 (by norm_num),
   (quantization_order_equiv (some 12000) 12000).2.2.2 (by norm_num)⟩

/-- C5: at every pixel of a 6-band mosaic where all six bands are
non-nodata after the `1/10000` scaling, the spectral transform returns
exactly three bands, each a fixed linear combination of the scaled band
values with the spec's exact coefficients (Brightness shown here in
full, Greenness and Wetness analogously). -/
theorem tasseled_cap_coefficients (b g r n s1 s2 : ℚ)
    (hb : b / 10000 ≠ 0) (hg : g / 10000 ≠ 0) (hr : r / 10000 ≠ 0)
    (hn : n / 10000 ≠ 0) (hs1 : s1 / 10000 ≠ 0) (hs2 : s2 / 10000 ≠ 0) :
    computeTasseledCapPix (some b) (some g) (some r) (some n) (some s1) (some s2)
      = (some (0.3037 * (b / 10000) + 0.2793 * (g / 10000) + 0.4743 * (r / 10000)
           + 0.5585 * (n / 10000) + 0.5082 * (s1 / 10000) + 0.1863 * (s2 / 10000)),
         some ((-0.2848) * (b / 10000) + (-0.2435) * (g / 10000)
           + (-0.5436) * (r / 10000) + 0.7243 * (n / 10000)
           + 0.0840 * (s1 / 10000) + (-0.1800) * (s2 / 10000)),
         some (0.1509 * (b / 10000) + 0.1973 * (g / 10000) + 0.3279 * (r / 10000)
           + 0.3406 * (n / 10000) + (-0.7112) * (s1 / 10000)
           + (-0.4572) * (s2 / 10000))) := by
  simp [computeTasseledCapPix, scalePix, zeroToNaN, tcCombo, mulC, addO,
    tcbRow, tcgRow, tcwRow, hb, hg, hr, hn, hs1, hs2]

/-- Witness for C5: all six bands at raw value 10000 scale to 1, so each
output is its coefficient row's sum. -/
theorem tasseled_cap_coefficients_witness :
    ((10000 : ℚ) / 10000 ≠ 0) ∧
    computeTasseledCapPix (some 10000) (some 10000) (some 10000)
        (some 10000) (some 10000) (some 10000)
      = (some (23103 / 10000), some (-1109 / 2500), some (-1517 / 10000)) := by
  have h : (10000 : ℚ) / 10000 ≠ 0 := by norm_num
  refine ⟨h, ?_⟩
  rw [tasseled_cap_coefficients 10000 10000 10000 10000 10000 10000 h h h h h h]
  norm_num

/-- C6: the spectral transform returns NaN in all three output bands at
every pixel where some input band, divided by 10000, is exactly 0, and
it is a pure function: byte-identical inputs give byte-identical
outputs. -/
theorem tasseled_cap_nodata_and_pure
    (blue green red nir swir1 swir2 : Option ℚ)
    (b2 g2 r2 n2 s12 s22 : Option ℚ) :
    ((∃ v, blue = some v ∧ v / 10000 = 0) ∨
     (∃ v, green = some v ∧ v / 10000 = 0) ∨
     (∃ v, red = some v ∧ v / 10000 = 0) ∨
     (∃ v, nir = some v ∧ v / 10000 = 0) ∨
     (∃ v, swir1 = some v ∧ v / 10000 = 0) ∨
     (∃ v, swir2 = some v ∧ v / 10000 = 0) →
      computeTasseledCapPix blue green red nir swir1 swir2
        = (none, none, none)) ∧
    (blue = b2 → green = g2 → red = r2 → nir = n2 → swir1 = s12 →
     swir2 = s22 →
      computeTasseledCapPix blue green red nir swir1 swir2
        = computeTasseledCapPix b2 g2 r2 n2 s12 s22) := by
  constructor
  · intro h
    have key : ∀ (c : TCRow) (x1 x2 x3 x4 x5 x6 : Option ℚ),
        x1 = none ∨ x2 = none ∨ x3 = none ∨ x4 = none ∨ x5 = none ∨
          x6 = none →
        tcCombo c x1 x2 x3 x4 x5 x6 = none := by
      intro c x1 x2 x3 x4 x5 x6 hx
      rcases hx with h1 | h2 | h3 | h4 | h5 | h6 <;> subst_vars <;>
        simp [tcCombo, mulC, addO]
    have hz : ∀ (o : Option ℚ), (∃ v, o = some v ∧ v / 10000 = 0) →
        zeroToNaN (scalePix o) = none := by
      rintro o ⟨v, rfl, hv⟩
      have hv0 : v = 0 := by
        rcases div_eq_zero_iff.mp hv with h | h
        · exact h
        · exact absurd h (by norm_num)
      subst hv0
      simp [scalePix, zeroToNaN]
    rcases h with h | h | h | h | h | h <;>
      · rw [computeTasseledCapPix]
        refine Prod.ext ?_ (Prod.ext ?_ ?_) <;>
          exact key _ _ _ _ _ _ _ (by simp [hz _ h])
  · intro h1 h2 h3 h4 h5 h6
    rw [h1, h2, h3, h4, h5, h6]

/-- Witness for C6: a pixel whose SWIR2 band is raw 0 gets NaN in all
three outputs, and re-application on identical input is identical. -/
theorem tasseled_cap_nodata_and_pure_witness :
    computeTasseledCapPix (some 5) (some 5) (some 5) (some 5) (some 5)
        (some 0) = (none, none, none) ∧
    computeTasseledCapPix (some 5) (some 5) (some 5) (some 5) (some 5)
        (some 0)
      = computeTasseledCapPix (some 5) (some 5) (some 5) (some 5) (some 5)
        (some 0) := by
  constructor
  · exact (tasseled_cap_nodata_and_pure (some 5) (some 5) (some 5) (some 5)
      (some 5) (some 0) (some 5) (some 5) (some 5) (some 5) (some 5)
      (some 0)).1
      (Or.inr (Or.inr (Or.inr (Or.inr (Or.inr ⟨0, rfl, by norm_num⟩)))))
  · exact (tasseled_cap_nodata_and_pure (some 5) (some 5) (some 5) (some 5)
      (some 5) (some 0) (some 5) (some 5) (some 5) (some 5) (some 5)
      (some 0)).2 rfl rfl rfl rfl rfl rfl

/-- `findSome? id` over a list of absent declarations finds nothing. -/
lemma findSome?_id_all_none (l : List (Option ℤ)) (h : ∀ o ∈ l, o = none) :
    l.findSome? id = none := by
  induction l with
  | nil => rfl
  | cons a t ih =>
      have ha := h a (List.mem_cons_self a t)
      subst ha
      simpa [List.findSome?] using ih (fun o ho => h o (List.mem_cons_of_mem _ ho))

/-- `findSome? id` past a declaration-free prefix picks the first
declared value. -/
lemma findSome?_id_first_some (l₁ l₂ : List (Option ℤ)) (e : ℤ)
    (h : ∀ o ∈ l₁, o = none) :
    (l₁ ++ some e :: l₂).findSome? id = some e := by
  induction l₁ with
  | nil => simp [List.findSome?]
  | cons a t ih =>
      have ha := h a (List.mem_cons_self a t)
      subst ha
      simpa [List.findSome?] using ih (fun o ho => h o (List.mem_cons_of_mem _ ho))

/-- `boundsProj` is the enclosing bbox of the two projected diagonal
corners. -/
lemma boundsProj_eq_enclose (tx : ℚ × ℚ → ℚ × ℚ) (b : BBoxLL) :
    boundsProj tx b
      = encloseBBox ([(b.minx, b.miny), (b.maxx, b.maxy)].map tx) := rfl

/-- C7: when no scene in a non-empty list declares a CRS, the chosen
EPSG is `32600 + zone` for centroid latitude ≥ 0 and `32700 + zone`
otherwise, with `zone = floor((lon + 180)/6) + 1` at the bbox midpoint;
when some scene declares a CRS, the first declared CRS is chosen. -/
theorem detect_epsg_selection (tx : ℤ → ℚ × ℚ → ℚ × ℚ)
    (items : List (Option ℤ)) (bbox : BBoxLL) :
    (items ≠ [] → (∀ o ∈ items, o = none) →
      ∃ bounds, detect_epsg_and_bounds tx items bbox
        = .ok ((if 0 ≤ (bbox.miny + bbox.maxy) / 2
            then 32600 + (Int.floor (((bbox.minx + bbox.maxx) / 2 + 180) / 6) + 1)
            else 32700 + (Int.floor (((bbox.minx + bbox.maxx) / 2 + 180) / 6) + 1)),
          bbox, bounds)) ∧
    (∀ l₁ e l₂, items = l₁ ++ some e :: l₂ → (∀ o ∈ l₁, o = none) →
      ∃ bounds, detect_epsg_and_bounds tx items bbox = .ok (e, bbox, bounds)) := by
  constructor
  · intro hne hnone
    refine ⟨boundsProj (tx (if 0 ≤ (bbox.miny + bbox.maxy) / 2
        then 32600 + (Int.floor (((bbox.minx + bbox.maxx) / 2 + 180) / 6) + 1)
        else 32700 + (Int.floor (((bbox.minx + bbox.maxx) / 2 + 180) / 6) + 1)))
        bbox, ?_⟩
    rw [detect_epsg_and_bounds]
    rw [if_neg (by simpa [List.isEmpty_iff] using hne)]
    rw [findSome?_id_all_none items hnone]
    rfl
  · intro l₁ e l₂ heq hnone
    subst heq
    refine ⟨boundsProj (tx e) bbox, ?_⟩
    rw [detect_epsg_and_bounds]
    rw [if_neg (by cases l₁ <;> simp)]
    rw [findSome?_id_first_some l₁ l₂ e hnone]

/-- Witness for C7: the repository's default AOI (lon midpoint −153.25,
lat midpoint 70.75) with no declared CRS yields EPSG 32605; a list whose
first declared CRS is 32633 yields 32633. -/
theorem detect_epsg_selection_witness :
    (∃ bounds, detect_epsg_and_bounds (fun _ p => p) [none, none]
        ⟨-153.5, 70.5, -153, 71⟩ = .ok (32605, ⟨-153.5, 70.5, -153, 71⟩, bounds)) ∧
    (∃ bounds, detect_epsg_and_bounds (fun _ p => p)
        [none, some 32633, some 32701] ⟨-153.5, 70.5, -153, 71⟩
        = .ok (32633, ⟨-153.5, 70.5, -153, 71⟩, bounds)) := by
  constructor
  · obtain ⟨bounds, hb⟩ := (detect_epsg_selection (fun _ p => p) [none, none]
      ⟨-153.5, 70.5, -153, 71⟩).1 (by simp) (by simp)
    refine ⟨bounds, ?_⟩
    rw [hb]
    norm_num
  · exact (detect_epsg_selection (fun _ p => p) [none, some 32633, some 32701]
      ⟨-153.5, 70.5, -153, 71⟩).2 [none] 32633 [some 32701] rfl (by simp)

/-- C3 counterexample: with the shear `tx (x, y) = (x − y, y)` and the
unit AOI square, the resolver returns x-range `[0, 0]` while the bbox of
all four projected corners has x-range `[−1, 1]`: the resolver does not
project all four corners. -/
theorem resolver_bounds_not_four_corners :
    detect_epsg_and_bounds (fun _ p => (p.1 - p.2, p.2)) [some 32633]
        ⟨0, 0, 1, 1⟩
      = .ok (32633, ⟨0, 0, 1, 1⟩, (0, 0, 0, 1)) ∧
    fourCornerBounds (fun p => (p.1 - p.2, p.2)) ⟨0, 0, 1, 1⟩
      = (-1, 0, 1, 1) ∧
    ((0 : ℚ), (0 : ℚ), (0 : ℚ), (1 : ℚ)) ≠ ((-1 : ℚ), (0 : ℚ), (1 : ℚ), (1 : ℚ)) := by
  refine ⟨?_, ?_, ?_⟩
  · rw [detect_epsg_and_bounds]
    norm_num [List.findSome?, boundsProj, min_def, max_def]
  · norm_num [fourCornerBounds, encloseBBox, min_def, max_def]
  · intro h
    exact absurd (congrArg Prod.fst h) (by norm_num)

/-- C3 (amended): the resolver projects only the two diagonal AOI
corners `(minx, miny)` and `(maxx, maxy)` and returns the axis-aligned
bbox enclosing those two projected points (per-axis min and max over the
two). -/
theorem resolver_bounds_two_corners (tx : ℤ → ℚ × ℚ → ℚ × ℚ)
    (items : List (Option ℤ)) (bbox : BBoxLL)
    (r : ℤ × BBoxLL × (ℚ × ℚ × ℚ × ℚ))
    (h : detect_epsg_and_bounds tx items bbox = .ok r) :
    r.2.2 = encloseBBox
      ([(bbox.minx, bbox.miny), (bbox.maxx, bbox.maxy)].map (tx r.1)) := by
  rw [detect_epsg_and_bounds] at h
  by_cases he : items.isEmpty = true
  · rw [if_pos he] at h
    exact Except.noConfusion h
  · rw [if_neg he] at h
    have hr := Except.ok.inj h
    subst hr
    rfl

/-- Witness for C3's amended theorem: with the identity transformer the
resolver's bounds component is the bbox of the two diagonal corners. -/
theorem resolver_bounds_two_corners_witness :
    ((32633 : ℤ), (⟨0, 0, 2, 3⟩ : BBoxLL),
        ((0 : ℚ), (0 : ℚ), (2 : ℚ), (3 : ℚ))).2.2
      = encloseBBox ([((0 : ℚ), (0 : ℚ)), ((2 : ℚ), (3 : ℚ))].map
          ((fun _ p => p) (32633 : ℤ))) :=
  resolver_bounds_two_corners (fun _ p => p) [some 32633] ⟨0, 0, 2, 3⟩
    (32633, ⟨0, 0, 2, 3⟩, (0, 0, 2, 3))
    (by
      rw [detect_epsg_and_bounds]
      norm_num [List.findSome?, boundsProj, min_def, max_def])

/-- Pixel lookup in a scene, by band index and (y, x). -/
def pixAtScene (s : Scene) (b y x : ℕ) : Option ℚ :=
  (((s.getD b defaultBR).rows.getD y []).getD x none)

/-- `getD` through `zipWith`, inside the zipped range. -/
lemma getD_zipWith {α β γ : Type} (f : α → β → γ) (l₁ : List α)
    (l₂ : List β) (i : ℕ) (d₁ : α) (d₂ : β) (d : γ)
    (h₁ : i < l₁.length) (h₂ : i < l₂.length) :
    (List.zipWith f l₁ l₂).getD i d = f (l₁.getD i d₁) (l₂.getD i d₂) := by
  have hz : i < (List.zipWith f l₁ l₂).length := by
    rw [List.length_zipWith]
    omega
  rw [List.getD_eq_getElem _ _ hz, List.getElem_zipWith,
    List.getD_eq_getElem _ _ h₁, List.getD_eq_getElem _ _ h₂]

/-- `getD` through `map` over a scene's band list. -/
lemma getD_map_br (F : BandRaster → BandRaster) (s : Scene) (b : ℕ) :
    (s.map F).getD b defaultBR
      = if b < s.length then F (s.getD b defaultBR) else defaultBR := by
  by_cases hb : b < s.length
  · rw [if_pos hb, List.getD_eq_getElem _ _ (by simpa using hb),
      List.getElem_map, List.getD_eq_getElem _ _ hb]
  · rw [if_neg hb,
      List.getD_eq_default _ _ (by simpa using Nat.le_of_not_lt hb)]

/-- `maskStage` on a classifier success, unfolded to the normalization
match. -/
lemma maskStage_ok (s : Scene) (pm : PredMask) :
    maskStage s (.ok pm)
      = (match normalizePred pm with
        | .d3 _ => .error "Mask shape does not match scene shape"
        | .d2 m =>
            if shape2 m = (sceneNY s, sceneNX s) then .ok (applyKeepMask m s)
            else .error "Mask shape does not match scene shape") := rfl

/-- `maskStage` on an already 2-D class map. -/
lemma maskStage_ok_d2 (s : Scene) (m : List (List ℤ)) :
    maskStage s (.ok (.d2 m))
      = (if shape2 m = (sceneNY s, sceneNX s) then .ok (applyKeepMask m s)
        else .error "Mask shape does not match scene shape") := rfl

/-- C8: a scene whose projected intersection coverage is strictly below
the 0.4 threshold is skipped before anything else happens: the loop
iteration produces no output and, in particular, an empty event trace —
no band fetch is ever invoked for that scene. -/
theorem low_coverage_skips_before_fetch
    (resample : BandRaster → BandRaster → List (List (Option ℚ)))
    (bands10 bands20 : List String) (sc : SceneCtx)
    (h : sc.coverage < 2/5) :
    processScene resample bands10 bands20 sc = (none, []) := by
  rw [processScene, if_pos h]

/-- Witness for C8: the spec's scenario of a scene scoring 0.39 — with
assets available, the result is no output and zero fetch events. -/
theorem low_coverage_skips_before_fetch_witness :
    processScene (fun _ r => r.rows) (bands10of BAND_ORDER)
      (bands20of BAND_ORDER)
      { coverage := 39/100,
        assets := [("B02_10m", { pixelSize := 10, rows := [[some 1]] })],
        classifyRes := .ok (.d2 [[0]]) } = (none, []) :=
  low_coverage_skips_before_fetch _ _ _ _ (by norm_num)

/-- C2 (evaluation at the failing input): a scene whose assets hold no
10m band but do hold the 20m band B11 fetches that band and then fails —
`reproject_match` receives a `None` reference and raises, the per-scene
handler catches, and no raster is produced.  The coarse band is not
promoted to the reference grid. -/
theorem no_reference_band_scene_fails :
    processScene (fun r _ => r.rows) (bands10of BAND_ORDER)
      (bands20of BAND_ORDER)
      { coverage := 1,
        assets := [("B11_20m", { pixelSize := 20, rows := [[some 5]] })],
        classifyRes := .ok (.d2 [[0]]) }
      = (none, [.fetch "B11_20m"]) := by
  rw [processScene, if_neg (by norm_num)]
  rfl

/-- C4 (amended, `process_year` part): when harmonization succeeds and
the masking block raises (classifier failure or shape mismatch), the
inner try/except degrades to the unmasked scene, which is still
quantized and persisted. -/
theorem mask_failure_degrades_to_unmasked
    (resample : BandRaster → BandRaster → List (List (Option ℚ)))
    (bands10 bands20 : List String) (sc : SceneCtx) (scene : Scene)
    (msg : String)
    (hcov : ¬ sc.coverage < 2/5)
    (hharm : (harmonizeScene resample bands10 bands20 sc.assets).1
      = .ok (some scene))
    (hmask : maskStage scene sc.classifyRes = .error msg) :
    (processScene resample bands10 bands20 sc).1
      = some (quantizeScene scene) := by
  rw [processScene, if_neg hcov]
  simp only [hharm, hmask]

/-- Witness for C4's amended theorem: one 10m band present, classifier
raising — the persisted output is the quantized unmasked scene. -/
theorem mask_failure_degrades_to_unmasked_witness :
    (processScene (fun _ r => r.rows) (bands10of BAND_ORDER)
      (bands20of BAND_ORDER)
      { coverage := 1,
        assets := [("B02_10m", { pixelSize := 10, rows := [[some 5]] })],
        classifyRes := .error "classifier failed" }).1
      = some (quantizeScene [{ pixelSize := 10, rows := [[some 5]] }]) :=
  mask_failure_degrades_to_unmasked (fun _ r => r.rows) _ _ _ _
    "classifier failed" (by norm_num) rfl rfl

/-- C4 counterexample (standalone masking stage): in the
`mask_scenes.py` → `mask_scene` path, a classifier failure propagates
out of `mask_scene` before any write, the orchestrator catches it, and
no masked output is produced for the scene — it is dropped from the
masked output set rather than persisted unmasked. -/
theorem mask_scenes_cli_drops_failed_scene :
    mask_scene_run [{ pixelSize := 10, rows := [[some 5]] }]
        (.error "classifier failed") = .error "classifier failed" ∧
    maskScenesMainStep [{ pixelSize := 10, rows := [[some 5]] }]
        (.error "classifier failed") = none := ⟨rfl, rfl⟩

/-- C9: the gate normalizes a `(1, y, x)` classifier output by dropping
the channel and a `(3, y, x)` output by selecting channel index 1; it
raises a shape-mismatch error exactly when the normalized map's shape
differs from the scene's `(y, x)`; and on success the keep-mask retains
exactly the class-0 pixels, setting every other pixel to nodata in all
bands. -/
theorem cloud_mask_gate_spec (s : Scene) (pm : PredMask)
    (m : List (List ℤ)) :
    (normalizePred (.d3 [m]) = .d2 m) ∧
    (∀ c0 c1 c2 : List (List ℤ), normalizePred (.d3 [c0, c1, c2]) = .d2 c1) ∧
    ((∃ e, maskStage s (.ok pm) = .error e) ↔
      predShapeMatches (normalizePred pm) (sceneNY s) (sceneNX s) = false) ∧
    (shape2 m = (sceneNY s, sceneNX s) →
      maskStage s (.ok (.d2 m)) = .ok (applyKeepMask m s)) ∧
    (∀ b y x, y < m.length → y < (s.getD b defaultBR).rows.length →
      x < (m.getD y []).length →
      x < ((s.getD b defaultBR).rows.getD y []).length →
      pixAtScene (applyKeepMask m s) b y x
        = if (m.getD y []).getD x 1 = 0 then pixAtScene s b y x else none) := by
  refine ⟨rfl, fun c0 c1 c2 => rfl, ?_, ?_, ?_⟩
  · constructor
    · rintro ⟨e, he⟩
      cases hnp : normalizePred pm with
      | d3 c => simp [hnp, predShapeMatches]
      | d2 m2 =>
          simp only [maskStage_ok, hnp] at he
          by_cases hsh : shape2 m2 = (sceneNY s, sceneNX s)
          · rw [if_pos hsh] at he
            exact Except.noConfusion he
          · simp [predShapeMatches, hnp, hsh]
    · intro hnm
      cases hnp : normalizePred pm with
      | d3 c =>
          exact ⟨"Mask shape does not match scene shape",
            by simp only [maskStage_ok, hnp]⟩
      | d2 m2 =>
          rw [hnp] at hnm
          simp only [predShapeMatches, decide_eq_false_iff_not] at hnm
          exact ⟨"Mask shape does not match scene shape",
            by simp only [maskStage_ok, hnp, if_neg hnm]⟩
  · intro hsh
    rw [maskStage_ok_d2, if_pos hsh]
  · intro b y x hy1 hy2 hx1 hx2
    by_cases hb : b < s.length
    · rw [pixAtScene, applyKeepMask, getD_map_br, if_pos hb]
      simp only [getD_zipWith _ _ _ _ [] [] _ hy1 hy2]
      simp only [getD_zipWith _ _ _ _ 1 none _ hx1 hx2]
      rfl
    · have hb2 : s.length ≤ b := Nat.le_of_not_lt hb
      rw [pixAtScene, applyKeepMask, getD_map_br, if_neg hb]
      rw [pixAtScene, List.getD_eq_default _ _ hb2]
      simp [defaultBR]

/-- Witness for C9: a 1×2 scene with a `(3, y, x)` classifier output —
channel 1 is selected, class 0 keeps the pixel, class 1 becomes nodata;
a wrong-shaped map raises. -/
theorem cloud_mask_gate_spec_witness :
    maskStage [{ pixelSize := 10, rows := [[some 5, some 7]] }]
        (.ok (.d2 [[0, 1]]))
      = .ok (applyKeepMask [[0, 1]]
          [{ pixelSize := 10, rows := [[some 5, some 7]] }]) ∧
    pixAtScene (applyKeepMask [[0, 1]]
        [{ pixelSize := 10, rows := [[some 5, some 7]] }]) 0 0 0 = some 5 ∧
    pixAtScene (applyKeepMask [[0, 1]]
        [{ pixelSize := 10, rows := [[some 5, some 7]] }]) 0 0 1 = none ∧
    normalizePred (.d3 [[[9, 9]], [[0, 1]], [[9, 9]]]) = .d2 [[0, 1]] ∧
    (∃ e, maskStage [{ pixelSize := 10, rows := [[some 5, some 7]] }]
        (.ok (.d2 [[0]])) = .error e) := by
  refine ⟨?_, ?_, ?_, ?_, ?_⟩
  · exact (cloud_mask_gate_spec
      [{ pixelSize := 10, rows := [[some 5, some 7]] }] (.d2 [[0, 1]])
      [[0, 1]]).2.2.2.1 (by simp [shape2, sceneNY, sceneNX])
  · refine ((cloud_mask_gate_spec
      [{ pixelSize := 10, rows := [[some 5, some 7]] }] (.d2 [[0, 1]])
      [[0, 1]]).2.2.2.2 0 0 0 (by simp) (by simp [defaultBR])
      (by simp) (by simp [defaultBR])).trans ?_
    simp [pixAtScene, defaultBR]
  · refine ((cloud_mask_gate_spec
      [{ pixelSize := 10, rows := [[some 5, some 7]] }] (.d2 [[0, 1]])
      [[0, 1]]).2.2.2.2 0 0 1 (by simp) (by simp [defaultBR])
      (by simp) (by simp [defaultBR])).trans ?_
    simp
  · exact (cloud_mask_gate_spec
      [{ pixelSize := 10, rows := [[some 5, some 7]] }] (.d2 [[0, 1]])
      [[9, 9]]).2.1 [[9, 9]] [[0, 1]] [[9, 9]]
  · exact ((cloud_mask_gate_spec
      [{ pixelSize := 10, rows := [[some 5, some 7]] }] (.d2 [[0]])
      [[0, 1]]).2.2.1).mpr (by decide)

end S2TCVIS
